import Mathlib

/-!
Verification of the Age & Era Calculator core logic (src/logic.py).

The functions of `logic.py` are embedded shallowly: Python `datetime.date`
becomes `PyDate` (an integer year/month/day triple together with the validity
check performed by the CPython constructor, year range 1..9999 included),
fallible constructions (`date(...)`, `date.replace(...)`) become values of
`Except String PyDate`, and the pure classifiers become plain Lean functions
over `Int`.
-/

/-- A Python `datetime.date` value: a (year, month, day) triple.  A value of
this type produced by `mkDate` always satisfies `isValidDate`. -/
structure PyDate where
  year : Int
  month : Int
  day : Int
deriving DecidableEq, Repr

/-- Gregorian leap-year test, as used by `datetime.date` validity. -/
def isLeapYear (y : Int) : Bool :=
  (y % 4 == 0 && y % 100 != 0) || (y % 400 == 0)

/-- Number of days in month `m` of year `y` (for `1 ≤ m ≤ 12`). -/
def daysInMonth (y m : Int) : Int :=
  if m == 2 then (if isLeapYear y then 29 else 28)
  else if m == 4 || m == 6 || m == 9 || m == 11 then 30
  else 31

/-- Validity check of the CPython `date` constructor: `MINYEAR = 1`,
`MAXYEAR = 9999`, month in 1..12, day in 1..days-in-month. -/
def isValidDate (y m d : Int) : Bool :=
  1 ≤ y && y ≤ 9999 && 1 ≤ m && m ≤ 12 && 1 ≤ d && d ≤ daysInMonth y m

/-- `date(y, m, d)`: returns the date, or the `ValueError` the CPython
constructor raises when the triple is not a real calendar date. -/
def mkDate (y m d : Int) : Except String PyDate :=
  if isValidDate y m d then .ok ⟨y, m, d⟩ else .error "ValueError"

/-- Python `date` comparison `a < b` (dates compare lexicographically by
(year, month, day)). -/
def dateLt (a b : PyDate) : Bool :=
  a.year < b.year ||
    (a.year == b.year &&
      (a.month < b.month || (a.month == b.month && a.day < b.day)))

/-- Python `date` comparison `a <= b`. -/
def dateLe (a b : PyDate) : Bool :=
  dateLt a b || a == b

/-- `logic.parse_birthdate(*, age=None, dob=None)` with the ambient
`date.today()` made an explicit argument `today`.  Raised `ValueError`s
become `.error` with the message of the source. -/
def parse_birthdate (today : PyDate) (age : Option Int) (dob : Option PyDate) :
    Except String PyDate :=
  match dob, age with
  | some _, some _ => .error "Please specify either age or date of birth, not both."
  | some d, none =>
      if dateLt today d then .error "Date of birth cannot be in the future."
      else .ok d
  | none, some a =>
      if ¬(0 < a ∧ a < 130) then .error "Age must be between 1 and 129."
      else
        match mkDate (today.year - a) today.month today.day with
        | .ok b => .ok b
        | .error _ => mkDate (today.year - a) today.month (today.day - 1)
  | none, none => .error "Please specify either age or date of birth."

/-- Python `birth.replace(year=y)`: keeps month and day, raises (here:
`.error`) when the resulting triple is not a valid date. -/
def replaceYear (b : PyDate) (y : Int) : Except String PyDate :=
  mkDate y b.month b.day

/-- `logic.compute_periods(birth)`: the six period boundary dates, produced
by `date.replace` with year offsets 5, 12, 13, 19, 20, 29.  A `ValueError`
raised by any `replace` propagates (the source has no try/except here). -/
def compute_periods (birth : PyDate) :
    Except String (PyDate × PyDate × PyDate × PyDate × PyDate × PyDate) := do
  let child_start ← replaceYear birth (birth.year + 5)
  let child_end ← replaceYear birth (birth.year + 12)
  let teen_start ← replaceYear birth (birth.year + 13)
  let teen_end ← replaceYear birth (birth.year + 19)
  let ya_start ← replaceYear birth (birth.year + 20)
  let ya_end ← replaceYear birth (birth.year + 29)
  return (child_start, child_end, teen_start, teen_end, ya_start, ya_end)

/-- `logic.decade_label(year)`: Python `//` is floor division, embedded as
`Int.fdiv`; Python `str` of an integer agrees with `toString` on `Int`. -/
def decade_label (year : Int) : String :=
  toString (Int.fdiv year 10 * 10) ++ "s"

/-- `logic.get_generation(year)`. -/
def get_generation (year : Int) : String :=
  if 1928 ≤ year ∧ year ≤ 1945 then "Silent Generation"
  else if 1946 ≤ year ∧ year ≤ 1964 then "Baby Boomer"
  else if 1965 ≤ year ∧ year ≤ 1980 then "Generation X"
  else if 1981 ≤ year ∧ year ≤ 1996 then "Millennial"
  else if 1997 ≤ year ∧ year ≤ 2012 then "Generation Z"
  else if 2013 ≤ year then "Generation Alpha"
  else "Unknown"

/-- `logic.get_star_sign(birth)`: the if-chain over `(month, day)`. -/
def get_star_sign (birth : PyDate) : String :=
  let m := birth.month
  let d := birth.day
  if (m == 12 && d ≥ 22) || (m == 1 && d ≤ 19) then "Capricorn"
  else if (m == 1 && d ≥ 20) || (m == 2 && d ≤ 18) then "Aquarius"
  else if (m == 2 && d ≥ 19) || (m == 3 && d ≤ 20) then "Pisces"
  else if (m == 3 && d ≥ 21) || (m == 4 && d ≤ 19) then "Aries"
  else if (m == 4 && d ≥ 20) || (m == 5 && d ≤ 20) then "Taurus"
  else if (m == 5 && d ≥ 21) || (m == 6 && d ≤ 20) then "Gemini"
  else if (m == 6 && d ≥ 21) || (m == 7 && d ≤ 22) then "Cancer"
  else if (m == 7 && d ≥ 23) || (m == 8 && d ≤ 22) then "Leo"
  else if (m == 8 && d ≥ 23) || (m == 9 && d ≤ 22) then "Virgo"
  else if (m == 9 && d ≥ 23) || (m == 10 && d ≤ 22) then "Libra"
  else if (m == 10 && d ≥ 23) || (m == 11 && d ≤ 21) then "Scorpio"
  else if (m == 11 && d ≥ 22) || (m == 12 && d ≤ 21) then "Sagittarius"
  else "Unknown"

/-- The twelve zodiac range conditions of `get_star_sign`, listed
independently of the if-chain, so that disjointness and exhaustiveness can
be stated about the ranges themselves.  Each entry copies one condition of
the source verbatim. -/
def zodiacConds (m d : Int) : List Bool :=
  [ (m == 12 && d ≥ 22) || (m == 1 && d ≤ 19)
  , (m == 1 && d ≥ 20) || (m == 2 && d ≤ 18)
  , (m == 2 && d ≥ 19) || (m == 3 && d ≤ 20)
  , (m == 3 && d ≥ 21) || (m == 4 && d ≤ 19)
  , (m == 4 && d ≥ 20) || (m == 5 && d ≤ 20)
  , (m == 5 && d ≥ 21) || (m == 6 && d ≤ 20)
  , (m == 6 && d ≥ 21) || (m == 7 && d ≤ 22)
  , (m == 7 && d ≥ 23) || (m == 8 && d ≤ 22)
  , (m == 8 && d ≥ 23) || (m == 9 && d ≤ 22)
  , (m == 9 && d ≥ 23) || (m == 10 && d ≤ 22)
  , (m == 10 && d ≥ 23) || (m == 11 && d ≤ 21)
  , (m == 11 && d ≥ 22) || (m == 12 && d ≤ 21) ]

/-- Number of zodiac range conditions satisfied by `(m, d)`. -/
def zodiacMatchCount (m d : Int) : Nat :=
  (zodiacConds m d).countP (· = true)

/-- The placeholder string `generate_summary` returns when the `openai`
library or the API key is unavailable (Python adjacent string literals
concatenate). -/
def summaryPlaceholder : String :=
  "(OpenAI API key not configured or library not found, so here is a placeholder.)\n" ++
  "Imagine descriptions of pop culture, music scenes, and societal " ++
  "changes spanning the requested years here."

/-- `logic.generate_summary`, with its effectful boundary made explicit:
`openAIAvailable` models `OpenAI is None` being false (import succeeded),
`api_key` models `os.getenv` (`none` when unset; Python treats `""` as
falsy too), and `callResult` models the outcome of the provider call:
`.ok content` is `response.choices[0].message.content`, `.error e` is the
string rendering of an exception raised inside the try block.  The six year
arguments and the country flow only into the prompt sent to the provider,
so they do not affect the returned value on the paths modelled here. -/
def generate_summary (openAIAvailable : Bool) (api_key : Option String)
    (callResult : Except String String)
    (child_start child_end teen_start teen_end ya_start ya_end : Int)
    (country : String) : String :=
  if !openAIAvailable || api_key == none || api_key == some "" then
    summaryPlaceholder
  else
    match callResult with
    | .ok content => content.trim
    | .error e => "(Error communicating with OpenAI: " ++ e ++ ")"

/-! ## Helper lemmas -/

lemma dateLt_iff (a b : PyDate) :
    dateLt a b = true ↔
      (a.year < b.year ∨ (a.year = b.year ∧
        (a.month < b.month ∨ (a.month = b.month ∧ a.day < b.day)))) := by
  simp [dateLt, Bool.or_eq_true, Bool.and_eq_true, decide_eq_true_eq, beq_iff_eq]

lemma dateLe_iff (a b : PyDate) :
    dateLe a b = true ↔ (dateLt a b = true ∨ a = b) := by
  simp [dateLe, Bool.or_eq_true, beq_iff_eq]

lemma daysInMonth_ge (y m : Int) : 28 ≤ daysInMonth y m := by
  unfold daysInMonth
  split_ifs <;> omega

lemma daysInMonth_le (y m : Int) : daysInMonth y m ≤ 31 := by
  unfold daysInMonth
  split_ifs <;> omega

lemma daysInMonth_two (y : Int) :
    daysInMonth y 2 = if isLeapYear y then 29 else 28 := by
  unfold daysInMonth
  simp

lemma daysInMonth_eq_of_ne_two (y y' m : Int) (h : m ≠ 2) :
    daysInMonth y m = daysInMonth y' m := by
  unfold daysInMonth
  have hm : (m == 2) = false := by simp [h]
  rw [hm]
  simp

lemma isValidDate_iff (y m d : Int) :
    isValidDate y m d = true ↔
      (1 ≤ y ∧ y ≤ 9999 ∧ 1 ≤ m ∧ m ≤ 12 ∧ 1 ≤ d ∧ d ≤ daysInMonth y m) := by
  simp [isValidDate, Bool.and_eq_true, decide_eq_true_eq]
  tauto

lemma isLeapYear_of_feb29 (y : Int) (h : 29 ≤ daysInMonth y 2) :
    isLeapYear y = true := by
  rw [daysInMonth_two] at h
  split_ifs at h with hl
  · exact hl
  · omega

lemma isLeapYear_dvd (y : Int) (h : isLeapYear y = true) : y % 4 = 0 := by
  simp only [isLeapYear, Bool.or_eq_true, Bool.and_eq_true, beq_iff_eq,
    bne_iff_ne, ne_eq] at h
  rcases h with ⟨h4, _⟩ | h400 <;> omega

lemma isLeapYear_plus_five (y : Int) (h : isLeapYear y = true) :
    isLeapYear (y + 5) = false := by
  have h4 := isLeapYear_dvd y h
  simp only [isLeapYear, Bool.or_eq_false_iff, Bool.and_eq_false_iff,
    beq_eq_false_iff_ne, ne_eq, bne_eq_false_iff_eq]
  constructor
  · left
    omega
  · omega

/-- An offset year keeps a valid date valid, as long as the date is not
Feb 29 and the shifted year stays inside the `date` year range. -/
lemma isValidDate_shift (y m d k : Int) (h : isValidDate y m d = true)
    (hk : 0 ≤ k) (hy : y + k ≤ 9999) (hnot : ¬(m = 2 ∧ d = 29)) :
    isValidDate (y + k) m d = true := by
  rw [isValidDate_iff] at h ⊢
  obtain ⟨h1, h2, h3, h4, h5, h6⟩ := h
  refine ⟨by omega, hy, h3, h4, h5, ?_⟩
  by_cases hm : m = 2
  · subst hm
    have hd : d ≠ 29 := fun hd => hnot ⟨rfl, hd⟩
    have hd29 : d ≤ 28 := by
      rw [daysInMonth_two] at h6
      split_ifs at h6 <;> omega
    have := daysInMonth_ge (y + k) 2
    omega
  · rw [daysInMonth_eq_of_ne_two (y + k) y m hm]
    exact h6

/-! ## Claim theorems -/

/-- C1: the claim fails on the code.  `compute_periods` is not total over
valid birth dates: for every valid Feb 29 birth date the very first
`date.replace` call raises `ValueError` instead of clamping the day to 28,
because the offset year `birth.year + 5` is never a leap year when
`birth.year` is one. -/
theorem compute_periods_feb29_raises (b : PyDate)
    (hv : isValidDate b.year b.month b.day = true)
    (hm : b.month = 2) (hd : b.day = 29) :
    compute_periods b = Except.error "ValueError" := by
  rw [isValidDate_iff] at hv
  obtain ⟨h1, h2, h3, h4, h5, h6⟩ := hv
  rw [hm, hd] at h6
  have hleap : isLeapYear b.year = true := isLeapYear_of_feb29 b.year (by omega)
  have hleap5 : isLeapYear (b.year + 5) = false := isLeapYear_plus_five b.year hleap
  have hinvalid : isValidDate (b.year + 5) b.month b.day = false := by
    rw [Bool.eq_false_iff, ne_eq, isValidDate_iff, hm, hd]
    push_neg
    intro _ _ _ _ _
    rw [daysInMonth_two, hleap5]
    norm_num
  have h1' : replaceYear b (b.year + 5) = Except.error "ValueError" := by
    unfold replaceYear mkDate
    rw [hinvalid]
    rfl
  unfold compute_periods
  rw [h1']
  rfl

/-- Witness for C1 at the concrete birth date 2000-02-29. -/
theorem compute_periods_feb29_raises_witness :
    isValidDate 2000 2 29 = true ∧
    compute_periods ⟨2000, 2, 29⟩ = Except.error "ValueError" :=
  ⟨by decide, compute_periods_feb29_raises ⟨2000, 2, 29⟩ (by decide) rfl rfl⟩

/-- C2 counterexample: at the valid birth date 2004-02-29 `compute_periods`
does not return six dates at all; it raises `ValueError`. -/
theorem compute_periods_feb29_counterexample :
    isValidDate 2004 2 29 = true ∧
    compute_periods ⟨2004, 2, 29⟩ = Except.error "ValueError" :=
  ⟨by decide, rfl⟩

/-- C2 (amended): for every valid birth date that is not a Feb 29 (and whose
offset years stay inside the `date` year range), `compute_periods` returns
the six dates obtained by replacing the year with birth year + 5, 12, 13,
19, 20, 29, keeping the birth month and day, and those six dates are
strictly increasing. -/
theorem compute_periods_increasing (b : PyDate)
    (hv : isValidDate b.year b.month b.day = true)
    (hy : b.year + 29 ≤ 9999)
    (hnot : ¬(b.month = 2 ∧ b.day = 29)) :
    compute_periods b =
      Except.ok (⟨b.year + 5, b.month, b.day⟩, ⟨b.year + 12, b.month, b.day⟩,
        ⟨b.year + 13, b.month, b.day⟩, ⟨b.year + 19, b.month, b.day⟩,
        ⟨b.year + 20, b.month, b.day⟩, ⟨b.year + 29, b.month, b.day⟩) ∧
    dateLt ⟨b.year + 5, b.month, b.day⟩ ⟨b.year + 12, b.month, b.day⟩ = true ∧
    dateLt ⟨b.year + 12, b.month, b.day⟩ ⟨b.year + 13, b.month, b.day⟩ = true ∧
    dateLt ⟨b.year + 13, b.month, b.day⟩ ⟨b.year + 19, b.month, b.day⟩ = true ∧
    dateLt ⟨b.year + 19, b.month, b.day⟩ ⟨b.year + 20, b.month, b.day⟩ = true ∧
    dateLt ⟨b.year + 20, b.month, b.day⟩ ⟨b.year + 29, b.month, b.day⟩ = true := by
  have h5 := isValidDate_shift b.year b.month b.day 5 hv (by omega) (by omega) hnot
  have h12 := isValidDate_shift b.year b.month b.day 12 hv (by omega) (by omega) hnot
  have h13 := isValidDate_shift b.year b.month b.day 13 hv (by omega) (by omega) hnot
  have h19 := isValidDate_shift b.year b.month b.day 19 hv (by omega) (by omega) hnot
  have h20 := isValidDate_shift b.year b.month b.day 20 hv (by omega) (by omega) hnot
  have h29 := isValidDate_shift b.year b.month b.day 29 hv (by omega) (by omega) hnot
  refine ⟨?_, ?_, ?_, ?_, ?_, ?_⟩
  · unfold compute_periods replaceYear mkDate
    rw [h5, h12, h13, h19, h20, h29]
    rfl
  all_goals (rw [dateLt_iff]; dsimp only; omega)

/-- Witness for C2 at the concrete birth date 1995-01-01. -/
theorem compute_periods_increasing_witness :
    isValidDate 1995 1 1 = true ∧
    (compute_periods ⟨1995, 1, 1⟩ =
      Except.ok (⟨2000, 1, 1⟩, ⟨2007, 1, 1⟩, ⟨2008, 1, 1⟩,
        ⟨2014, 1, 1⟩, ⟨2015, 1, 1⟩, ⟨2024, 1, 1⟩) ∧
    dateLt ⟨2000, 1, 1⟩ ⟨2007, 1, 1⟩ = true ∧
    dateLt ⟨2007, 1, 1⟩ ⟨2008, 1, 1⟩ = true ∧
    dateLt ⟨2008, 1, 1⟩ ⟨2014, 1, 1⟩ = true ∧
    dateLt ⟨2014, 1, 1⟩ ⟨2015, 1, 1⟩ = true ∧
    dateLt ⟨2015, 1, 1⟩ ⟨2024, 1, 1⟩ = true) :=
  ⟨by decide,
    compute_periods_increasing ⟨1995, 1, 1⟩ (by decide) (by decide) (by decide)⟩

/-- C8: `get_generation` returns "Unknown" exactly for years before 1928,
and maps every later year to its generation by the contiguous ranges
1928-1945, 1946-1964, 1965-1980, 1981-1996, 1997-2012, and 2013 onward;
in particular 1990 is "Millennial", 1920 is "Unknown" and 2015 is
"Generation Alpha". -/
theorem get_generation_spec (y : Int) :
    (get_generation y = "Unknown" ↔ y < 1928) ∧
    (1928 ≤ y → y ≤ 1945 → get_generation y = "Silent Generation") ∧
    (1946 ≤ y → y ≤ 1964 → get_generation y = "Baby Boomer") ∧
    (1965 ≤ y → y ≤ 1980 → get_generation y = "Generation X") ∧
    (1981 ≤ y → y ≤ 1996 → get_generation y = "Millennial") ∧
    (1997 ≤ y → y ≤ 2012 → get_generation y = "Generation Z") ∧
    (2013 ≤ y → get_generation y = "Generation Alpha") ∧
    get_generation 1990 = "Millennial" ∧
    get_generation 1920 = "Unknown" ∧
    get_generation 2015 = "Generation Alpha" := by
  refine ⟨?_, ?_, ?_, ?_, ?_, ?_, ?_, by decide, by decide, by decide⟩
  · unfold get_generation
    split_ifs with h1 h2 h3 h4 h5 h6
    · exact iff_of_false (by decide) (by omega)
    · exact iff_of_false (by decide) (by omega)
    · exact iff_of_false (by decide) (by omega)
    · exact iff_of_false (by decide) (by omega)
    · exact iff_of_false (by decide) (by omega)
    · exact iff_of_false (by decide) (by omega)
    · exact iff_of_true rfl (by omega)
  all_goals
    (intros
     unfold get_generation
     split_ifs <;> first | rfl | (exfalso; omega))

/-- Witness for C8 at the concrete year 1990. -/
theorem get_generation_spec_witness :
    (1981 : Int) ≤ 1990 ∧ (1990 : Int) ≤ 1996 ∧
    get_generation 1990 = "Millennial" :=
  ⟨by decide, by decide,
    (get_generation_spec 1990).2.2.2.2.1 (by decide) (by decide)⟩

/-- C9: `decade_label` maps any integer year (negative and far-future years
included) to the string of the unique multiple of ten `d10` with
`d10 ≤ year < d10 + 10` (floor division by 10) followed by "s"; in
particular 1995 gives "1990s", 2004 gives "2000s", and -5 gives "-10s". -/
theorem decade_label_spec (y : Int) :
    (∃ d10 : Int, decade_label y = toString d10 ++ "s" ∧
      10 ∣ d10 ∧ d10 ≤ y ∧ y < d10 + 10) ∧
    decade_label 1995 = "1990s" ∧
    decade_label 2004 = "2000s" ∧
    decade_label (-5) = "-10s" := by
  refine ⟨⟨Int.fdiv y 10 * 10, rfl, ⟨Int.fdiv y 10, mul_comm _ _⟩, ?_, ?_⟩,
    rfl, rfl, rfl⟩ <;>
      (rw [Int.fdiv_eq_ediv y (by norm_num : (0:Int) ≤ 10)]; omega)

/-- C10: `generate_summary` never raises past its boundary: when the client
library or the credential is unavailable it returns the fixed placeholder
string verbatim, and when the provider call fails it returns a formatted
error string rather than propagating; on every path it returns a string. -/
theorem generate_summary_spec (avail : Bool) (key : Option String)
    (res : Except String String) (cs ce ts te ys ye : Int) (country : String) :
    (avail = false ∨ key = none ∨ key = some "" →
      generate_summary avail key res cs ce ts te ys ye country =
        summaryPlaceholder) ∧
    (∀ e, res = Except.error e →
      generate_summary avail key res cs ce ts te ys ye country =
          summaryPlaceholder ∨
        generate_summary avail key res cs ce ts te ys ye country =
          "(Error communicating with OpenAI: " ++ e ++ ")") ∧
    (∀ s, res = Except.ok s →
      generate_summary avail key res cs ce ts te ys ye country =
          summaryPlaceholder ∨
        generate_summary avail key res cs ce ts te ys ye country = s.trim) := by
  unfold generate_summary
  split_ifs with hc
  · exact ⟨fun _ => rfl, fun e _ => Or.inl rfl, fun s _ => Or.inl rfl⟩
  · simp only [Bool.or_eq_true, Bool.not_eq_true', beq_iff_eq, not_or] at hc
    obtain ⟨⟨ha, hk1⟩, hk2⟩ := hc
    refine ⟨?_, ?_, ?_⟩
    · rintro (h | h | h)
      · exact absurd h ha
      · exact absurd h hk1
      · exact absurd h hk2
    · intro e he
      subst he
      exact Or.inr rfl
    · intro s hs
      subst hs
      exact Or.inr rfl

/-- Witness for C10: with the library unavailable the placeholder is
returned. -/
theorem generate_summary_spec_witness :
    generate_summary false none (Except.ok "x") 0 0 0 0 0 0 "UK" =
      summaryPlaceholder :=
  (generate_summary_spec false none (Except.ok "x") 0 0 0 0 0 0 "UK").1
    (Or.inl rfl)

set_option maxHeartbeats 1000000 in
/-- Exhaustiveness and uniqueness of the zodiac ranges over the whole
(month, day) grid, checked by evaluation. -/
lemma zodiac_check : ∀ m ∈ Finset.Icc (1:ℕ) 12, ∀ d ∈ Finset.Icc (1:ℕ) 31,
    get_star_sign ⟨2000, (m:Int), (d:Int)⟩ ≠ "Unknown" ∧
    zodiacMatchCount (m:Int) (d:Int) = 1 := by decide

/-- C4: for every valid calendar date the zodiac lookup never falls through
to "Unknown", the date satisfies exactly one of the 12 range conditions,
and the result depends only on month and day, never on the year. -/
theorem get_star_sign_spec (b : PyDate)
    (hv : isValidDate b.year b.month b.day = true) :
    get_star_sign b ≠ "Unknown" ∧
    zodiacMatchCount b.month b.day = 1 ∧
    (∀ y, get_star_sign ⟨y, b.month, b.day⟩ = get_star_sign b) := by
  obtain ⟨y0, m0, d0⟩ := b
  rw [isValidDate_iff] at hv
  dsimp only at hv ⊢
  obtain ⟨h1, h2, h3, h4, h5, h6⟩ := hv
  have hd31 : d0 ≤ 31 := le_trans h6 (daysInMonth_le y0 m0)
  have hm' : m0 = ((m0.toNat : ℕ) : Int) := (Int.toNat_of_nonneg (by omega)).symm
  have hd' : d0 = ((d0.toNat : ℕ) : Int) := (Int.toNat_of_nonneg (by omega)).symm
  have hmmem : m0.toNat ∈ Finset.Icc 1 12 := by rw [Finset.mem_Icc]; omega
  have hdmem : d0.toNat ∈ Finset.Icc 1 31 := by rw [Finset.mem_Icc]; omega
  have key := zodiac_check m0.toNat hmmem d0.toNat hdmem
  rw [← hm', ← hd'] at key
  have hyear : ∀ y, get_star_sign ⟨y, m0, d0⟩ = get_star_sign ⟨y0, m0, d0⟩ :=
    fun y => rfl
  exact ⟨(hyear 2000) ▸ key.1, key.2, hyear⟩

/-- Witness for C4 at the concrete date 2000-03-21 (an "Aries" date). -/
theorem get_star_sign_spec_witness :
    isValidDate 2000 3 21 = true ∧
    (get_star_sign ⟨2000, 3, 21⟩ ≠ "Unknown" ∧
     zodiacMatchCount 3 21 = 1 ∧
     (∀ y, get_star_sign ⟨y, 3, 21⟩ = get_star_sign ⟨2000, 3, 21⟩)) :=
  ⟨by decide, get_star_sign_spec ⟨2000, 3, 21⟩ (by decide)⟩

/-- Shifting the year of a valid date down by an age makes the triple
invalid exactly when the date is Feb 29 and the target year is not leap. -/
lemma isValidDate_sub_iff (y m d a : Int)
    (hv : isValidDate y m d = true) (hy : 130 < y) (h1 : 0 < a) (h2 : a < 130) :
    isValidDate (y - a) m d = false ↔
      (m = 2 ∧ d = 29 ∧ isLeapYear (y - a) = false) := by
  rw [isValidDate_iff] at hv
  obtain ⟨a1, a2, a3, a4, a5, a6⟩ := hv
  constructor
  · intro hbad
    rw [Bool.eq_false_iff, ne_eq, isValidDate_iff] at hbad
    push_neg at hbad
    have hlt : daysInMonth (y - a) m < d :=
      hbad (by omega) (by omega) a3 a4 a5
    by_cases hm : m = 2
    · subst hm
      have g2 : d ≤ daysInMonth y 2 := a6
      rw [daysInMonth_two] at g2 hlt
      split_ifs at hlt with hleap
      · split_ifs at g2 <;> omega
      · have hd29 : d = 29 := by split_ifs at g2 <;> omega
        exact ⟨rfl, hd29, Bool.eq_false_iff.mpr hleap⟩
    · exfalso
      rw [daysInMonth_eq_of_ne_two (y - a) y m hm] at hlt
      omega
  · rintro ⟨hm, hd, hleap⟩
    subst hm
    subst hd
    rw [Bool.eq_false_iff, ne_eq, isValidDate_iff]
    push_neg
    intro _ _ _ _ _
    rw [daysInMonth_two, hleap]
    norm_num

/-- When the exact month/day does not exist in the target year, the
day-minus-one fallback date is valid. -/
lemma isValidDate_sub_fallback (y m d a : Int)
    (hv : isValidDate y m d = true) (hy : 130 < y) (h1 : 0 < a) (h2 : a < 130)
    (hbad : isValidDate (y - a) m d = false) :
    isValidDate (y - a) m (d - 1) = true := by
  obtain ⟨hm, hd, hleap⟩ := (isValidDate_sub_iff y m d a hv hy h1 h2).mp hbad
  subst hm
  subst hd
  rw [isValidDate_iff] at hv ⊢
  obtain ⟨a1, a2, a3, a4, a5, a6⟩ := hv
  refine ⟨by omega, by omega, a3, a4, by omega, ?_⟩
  have := daysInMonth_ge (y - a) 2
  omega

/-- The age branch of `parse_birthdate` always succeeds for an in-range age
(given a valid `today` late enough for the year subtraction), returning the
exact date when it exists and the day-clamped date otherwise. -/
lemma parse_age_ok (today : PyDate) (a : Int)
    (hv : isValidDate today.year today.month today.day = true)
    (hy : 130 < today.year) (h1 : 0 < a) (h2 : a < 130) :
    parse_birthdate today (some a) none =
      (if isValidDate (today.year - a) today.month today.day = true then
        Except.ok ⟨today.year - a, today.month, today.day⟩
      else Except.ok ⟨today.year - a, today.month, today.day - 1⟩) := by
  show (if ¬(0 < a ∧ a < 130) then
      (Except.error "Age must be between 1 and 129." : Except String PyDate)
    else
      match mkDate (today.year - a) today.month today.day with
      | Except.ok b => Except.ok b
      | Except.error _ => mkDate (today.year - a) today.month (today.day - 1)) = _
  rw [if_neg (not_not_intro ⟨h1, h2⟩)]
  by_cases hok : isValidDate (today.year - a) today.month today.day = true
  · rw [if_pos hok]
    have hmk : mkDate (today.year - a) today.month today.day =
        Except.ok ⟨today.year - a, today.month, today.day⟩ := by
      unfold mkDate
      rw [if_pos hok]
    rw [hmk]
  · rw [if_neg hok]
    have hbad : isValidDate (today.year - a) today.month today.day = false :=
      Bool.eq_false_iff.mpr hok
    have hfb :=
      isValidDate_sub_fallback today.year today.month today.day a hv hy h1 h2 hbad
    have e1 : mkDate (today.year - a) today.month today.day =
        Except.error "ValueError" := by
      unfold mkDate
      rw [if_neg hok]
    rw [e1]
    show mkDate (today.year - a) today.month (today.day - 1) = _
    unfold mkDate
    rw [if_pos hfb]

/-- A date `≤` another is never also `>` it (lexicographic trichotomy). -/
lemma dateLt_false_of_le (a b : PyDate) (h : dateLe a b = true) :
    dateLt b a = false := by
  rcases (dateLe_iff a b).mp h with hlt | heq
  · rw [dateLt_iff] at hlt
    rw [Bool.eq_false_iff, ne_eq, dateLt_iff]
    omega
  · subst heq
    rw [Bool.eq_false_iff, ne_eq, dateLt_iff]
    omega

/-- C3: the resolver raises exactly when both inputs are supplied, neither
is supplied, the explicit date of birth is strictly after today, or the age
is outside the open interval (0, 130); every other input succeeds. -/
theorem parse_birthdate_error_iff (today : PyDate) (age : Option Int)
    (dob : Option PyDate)
    (hv : isValidDate today.year today.month today.day = true)
    (hy : 130 < today.year) :
    (∃ e, parse_birthdate today age dob = Except.error e) ↔
      (age.isSome = true ∧ dob.isSome = true) ∨
      (age = none ∧ dob = none) ∨
      (∃ d, dob = some d ∧ age = none ∧ dateLt today d = true) ∨
      (∃ a, age = some a ∧ dob = none ∧ ¬(0 < a ∧ a < 130)) := by
  rcases dob with _ | d <;> rcases age with _ | a
  · constructor
    · intro _
      exact Or.inr (Or.inl ⟨rfl, rfl⟩)
    · intro _
      exact ⟨"Please specify either age or date of birth.", rfl⟩
  · by_cases ha : 0 < a ∧ a < 130
    · have hb := parse_age_ok today a hv hy ha.1 ha.2
      constructor
      · rintro ⟨e, he⟩
        rw [hb] at he
        split_ifs at he
      · rintro (⟨_, hs2⟩ | ⟨hn1, _⟩ | ⟨d, hd, _, _⟩ | ⟨a', ha1, _, ha3⟩)
        · cases hs2
        · cases hn1
        · cases hd
        · injection ha1 with h
          subst h
          exact absurd ha ha3
    · constructor
      · intro _
        exact Or.inr (Or.inr (Or.inr ⟨a, rfl, rfl, ha⟩))
      · intro _
        refine ⟨"Age must be between 1 and 129.", ?_⟩
        show (if ¬(0 < a ∧ a < 130) then
            (Except.error "Age must be between 1 and 129." : Except String PyDate)
          else
            match mkDate (today.year - a) today.month today.day with
            | Except.ok b => Except.ok b
            | Except.error _ =>
                mkDate (today.year - a) today.month (today.day - 1)) = _
        rw [if_pos ha]
  · show (∃ e, (if dateLt today d = true then
        (Except.error "Date of birth cannot be in the future." :
          Except String PyDate)
      else Except.ok d) = Except.error e) ↔ _
    by_cases hlt : dateLt today d = true
    · rw [if_pos hlt]
      constructor
      · intro _
        exact Or.inr (Or.inr (Or.inl ⟨d, rfl, rfl, hlt⟩))
      · intro _
        exact ⟨_, rfl⟩
    · rw [if_neg hlt]
      constructor
      · rintro ⟨e, he⟩
        cases he
      · rintro (⟨hs1, _⟩ | ⟨_, hn⟩ | ⟨d', hd1, _, hd3⟩ | ⟨a', ha1, _, _⟩)
        · cases hs1
        · cases hn
        · injection hd1 with h
          subst h
          exact absurd hd3 hlt
        · cases ha1
  · constructor
    · intro _
      exact Or.inl ⟨rfl, rfl⟩
    · intro _
      exact ⟨"Please specify either age or date of birth, not both.", rfl⟩

/-- Witness for C3: with neither input supplied the resolver errors. -/
theorem parse_birthdate_error_iff_witness :
    ∃ e, parse_birthdate ⟨2026, 10, 12⟩ none none = Except.error e :=
  (parse_birthdate_error_iff ⟨2026, 10, 12⟩ none none (by decide)
    (by decide)).mpr (Or.inr (Or.inl ⟨rfl, rfl⟩))

/-- C6: resolving from an age in 1..129 yields the date with year
`today.year - age` and today's month and day, clamping the day down by one
exactly when that (month, day) does not exist in the target year, which
happens precisely when today is Feb 29 and the target year is not leap. -/
theorem parse_birthdate_age_spec (today : PyDate) (a : Int)
    (hv : isValidDate today.year today.month today.day = true)
    (hy : 130 < today.year) (h1 : 0 < a) (h2 : a < 130) :
    parse_birthdate today (some a) none =
      (if isValidDate (today.year - a) today.month today.day = true then
        Except.ok ⟨today.year - a, today.month, today.day⟩
      else Except.ok ⟨today.year - a, today.month, today.day - 1⟩) ∧
    (isValidDate (today.year - a) today.month today.day = false ↔
      (today.month = 2 ∧ today.day = 29 ∧
        isLeapYear (today.year - a) = false)) :=
  ⟨parse_age_ok today a hv hy h1 h2,
    isValidDate_sub_iff today.year today.month today.day a hv hy h1 h2⟩

/-- Witness for C6: today 2024-02-29 and age 30 resolve to the clamped date
1994-02-28 (1994 is not a leap year). -/
theorem parse_birthdate_age_spec_witness :
    parse_birthdate ⟨2024, 2, 29⟩ (some 30) none = Except.ok ⟨1994, 2, 28⟩ := by
  have h := (parse_birthdate_age_spec ⟨2024, 2, 29⟩ 30 (by decide) (by decide)
    (by decide) (by decide)).1
  rw [h]
  rfl

/-- C7: resolving with an explicit dob is the identity on every date that
is not after today, and fails with the future-date error otherwise. -/
theorem parse_birthdate_dob_spec (today d : PyDate) :
    (dateLe d today = true → parse_birthdate today none (some d) = Except.ok d) ∧
    (dateLt today d = true →
      parse_birthdate today none (some d) =
        Except.error "Date of birth cannot be in the future.") := by
  constructor
  · intro hle
    have hnlt : ¬ dateLt today d = true := by
      rw [dateLt_false_of_le d today hle]
      exact Bool.false_ne_true
    show (if dateLt today d = true then
        (Except.error "Date of birth cannot be in the future." :
          Except String PyDate)
      else Except.ok d) = _
    rw [if_neg hnlt]
  · intro hlt
    show (if dateLt today d = true then
        (Except.error "Date of birth cannot be in the future." :
          Except String PyDate)
      else Except.ok d) = _
    rw [if_pos hlt]

/-- Witness for C7 at today 2026-10-12 and dob 1995-01-01. -/
theorem parse_birthdate_dob_spec_witness :
    parse_birthdate ⟨2026, 10, 12⟩ none (some ⟨1995, 1, 1⟩) =
      Except.ok ⟨1995, 1, 1⟩ :=
  (parse_birthdate_dob_spec ⟨2026, 10, 12⟩ ⟨1995, 1, 1⟩).1 (by decide)

/-- C5 counterexample: the resolver accepts the explicit date of birth
1850-01-01 (strictly before 1900-01-01) and returns it unchanged, so the
claimed 1900 lower bound does not hold for the resolver. -/
theorem parse_birthdate_pre1900_accepted :
    parse_birthdate ⟨2026, 10, 12⟩ none (some ⟨1850, 1, 1⟩) =
      Except.ok ⟨1850, 1, 1⟩ ∧
    dateLt ⟨1850, 1, 1⟩ ⟨1900, 1, 1⟩ = true :=
  ⟨rfl, by decide⟩

/-- C5 (amended): every birth date the resolver returns is less than or
equal to today; no lower bound is enforced by the resolver. -/
theorem parse_birthdate_result_le_today (today : PyDate) (age : Option Int)
    (dob : Option PyDate) (b : PyDate)
    (hok : parse_birthdate today age dob = Except.ok b) :
    dateLe b today = true := by
  rcases dob with _ | d <;> rcases age with _ | a
  · cases hok
  · -- age branch
    rw [show parse_birthdate today (some a) none =
        (if ¬(0 < a ∧ a < 130) then
          (Except.error "Age must be between 1 and 129." : Except String PyDate)
        else
          match mkDate (today.year - a) today.month today.day with
          | Except.ok b => Except.ok b
          | Except.error _ =>
              mkDate (today.year - a) today.month (today.day - 1)) from rfl]
        at hok
    split_ifs at hok with hcond
    have hyear : b.year = today.year - a := by
      cases hmk : mkDate (today.year - a) today.month today.day with
      | ok b' =>
        rw [hmk] at hok
        unfold mkDate at hmk
        split_ifs at hmk
        injection hok with h
        subst h
        injection hmk with h'
        rw [← h']
      | error e =>
        rw [hmk] at hok
        unfold mkDate at hok
        split_ifs at hok
        injection hok with h
        subst h
        rfl
    rw [dateLe_iff]
    left
    rw [dateLt_iff]
    left
    omega
  · -- dob branch
    rw [show parse_birthdate today none (some d) =
        (if dateLt today d = true then
          (Except.error "Date of birth cannot be in the future." :
            Except String PyDate)
        else Except.ok d) from rfl] at hok
    split_ifs at hok with hlt
    injection hok with h
    subst h
    rw [dateLe_iff]
    rcases eq_or_ne d today with heq | hne
    · exact Or.inr heq
    · left
      rw [dateLt_iff]
      rw [dateLt_iff] at hlt
      obtain ⟨d1, d2, d3⟩ := d
      obtain ⟨t1, t2, t3⟩ := today
      simp only [ne_eq, PyDate.mk.injEq, not_and] at hne
      dsimp only at hlt ⊢
      omega
  · cases hok

/-- Witness for C5 (amended): the accepted 1850 date is ≤ today. -/
theorem parse_birthdate_result_le_today_witness :
    dateLe ⟨1850, 1, 1⟩ ⟨2026, 10, 12⟩ = true :=
  parse_birthdate_result_le_today ⟨2026, 10, 12⟩ none (some ⟨1850, 1, 1⟩)
    ⟨1850, 1, 1⟩ rfl
